import Mathlib

/-!
Shallow embedding of `src/server.js` of the facturacion-afip repository.

Conventions of the embedding:
* JS strings are Lean `String`s; all scanning is done on the character
  list (`String.data`) with structurally recursive functions so that every
  definition evaluates inside the kernel.  `.slice(0, n)` is modelled as
  taking the first `n` characters (they agree on the Basic-Multilingual-
  Plane text this program handles), `.trim()` as dropping ASCII whitespace
  at both ends, `.toUpperCase()` as ASCII upper-casing (the program only
  compares against the ASCII keywords "CUIT", "DNI", "CF").
* JS numbers produced by `Number(...)` are modelled as `Option Rat`:
  `none` stands for `NaN`, `some q` for the exact decimal value.  The
  strings this program feeds to `Number` are digit/dot strings, for which
  exact decimal arithmetic is the intended semantics.
* Fallible external calls are oracles: an `Except`/`Bool` outcome supplied
  as an argument to the orchestrator model.
-/

namespace Facturacion

/-- JS `String.prototype.slice(0, n)`: the first `n` characters. -/
def sliceJs (s : String) (n : Nat) : String :=
  ⟨s.data.take n⟩

/-- The digit characters of a string, i.e. JS `.replace(/\D/g, '')`. -/
def stripNonDigits (s : String) : String :=
  ⟨s.data.filter Char.isDigit⟩

/-- ASCII model of JS `.toUpperCase()`. -/
def upperAscii (s : String) : String :=
  ⟨s.data.map Char.toUpper⟩

/-- ASCII whitespace as matched by the JS regexp class `\s` and trimmed by
JS `.trim()`. -/
def jsIsSpace (c : Char) : Bool :=
  c = ' ' || c = '\t' || c = '\n' || c = '\r' || c = '\x0b' || c = '\x0c'

/-- JS `String.prototype.trim()` on the characters of a string. -/
def trimJs (s : String) : String :=
  ⟨((s.data.dropWhile jsIsSpace).reverse.dropWhile jsIsSpace).reverse⟩

/-- Split a character list at every occurrence of `sep` (JS
`String.prototype.split(sep)` for a one-character separator). -/
def splitOnChar (sep : Char) : List Char → List (List Char)
  | [] => [[]]
  | c :: cs =>
      let r := splitOnChar sep cs
      if c = sep then [] :: r
      else
        match r with
        | [] => [[c]]
        | h :: t => (c :: h) :: t

/-- Numeric value of a list of digit characters, most significant first. -/
def digitsVal (l : List Char) : Nat :=
  l.foldl (fun a c => 10 * a + (c.toNat - 48)) 0

/-- JS `Number(s)` restricted to the strings this program builds (strings
over the alphabet `[0-9.]`), split into a mantissa and a decimal scale so
that the whole conversion evaluates inside the kernel: the value denoted
is `mant / 10 ^ scale`.  `none` models `NaN` (e.g. two dots, or a lone
dot); the empty string converts to `0` as in JS. -/
def jsNumberParts (l : List Char) : Option (Nat × Nat) :=
  match splitOnChar '.' l with
  | [a] =>
      if a.isEmpty then some (0, 0)
      else if a.all Char.isDigit then some (digitsVal a, 0) else none
  | [a, b] =>
      if a.isEmpty && b.isEmpty then none
      else if a.all Char.isDigit && b.all Char.isDigit then
        some (digitsVal a * 10 ^ b.length + digitsVal b, b.length)
      else none
  | _ => none

/-- The rational value of a mantissa/scale pair. -/
def decValue (p : Nat × Nat) : Rat :=
  (p.1 : Rat) / (10 : Rat) ^ p.2

/-- JS `Number(s)` for digit/dot strings as an exact rational (`none` is
`NaN`). -/
def jsNumber (l : List Char) : Option Rat :=
  (jsNumberParts l).map decValue

/-- JS `s.replace(',', '.')`: only the first comma is replaced. -/
def replaceFirstComma : List Char → List Char
  | [] => []
  | c :: cs => if c = ',' then '.' :: cs else c :: replaceFirstComma cs

/-- Keep only the characters matching `[0-9.]`, i.e. the JS
`.replace(/[^0-9.]/g, '')`. -/
def keepDigitsDots (l : List Char) : List Char :=
  l.filter (fun c => c.isDigit || c = '.')

/-- The string-cleaning part of `parseMonto` from `src/server.js`
(lines 76-86): disambiguates Argentinian vs. plain decimal notation.
When the trimmed string contains both `.` and `,`, or only `,`, all dots
are removed, the first comma becomes the decimal point, and remaining
non-`[0-9.]` characters are stripped; otherwise non-`[0-9.]` characters
are stripped directly.  `parseMonto` below passes the result to the JS
`Number` conversion. -/
def montoCleaned (str : String) : List Char :=
  let s := (trimJs str).data
  if s.contains '.' && s.contains ',' then
    keepDigitsDots (replaceFirstComma (s.filter (fun c => c ≠ '.')))
  else if s.contains ',' && !s.contains '.' then
    keepDigitsDots (replaceFirstComma (s.filter (fun c => c ≠ '.')))
  else
    keepDigitsDots s

/-- `parseMonto` as a rational-valued function: the JS `Number` of the
cleaned string. -/
def parseMonto (str : String) : Option Rat :=
  jsNumber (montoCleaned str)

/-- The separator-disambiguation table exactly as the spec's §4.2 states
it (spec-side definition, for comparison with `parseMonto`): presence of
both `.` and `,` treats `.` as thousands and `,` as decimal; presence of
only `,` applies the same rule; otherwise non-digit/non-dot characters
are stripped. -/
def parseLocaleAmountSpec (str : String) : Option Rat :=
  let s := (trimJs str).data
  if s.contains '.' && s.contains ',' then
    jsNumber (keepDigitsDots (replaceFirstComma (s.filter (fun c => c ≠ '.'))))
  else if s.contains ',' then
    jsNumber (keepDigitsDots (replaceFirstComma (s.filter (fun c => c ≠ '.'))))
  else
    jsNumber (keepDigitsDots s)

/-- Value of a digit character. -/
def charDigit (c : Char) : Nat := c.toNat - 48

/-- The check digit of the spec's §4.2 modulus-11 rule (spec-side
definition): weight the first 10 digits by `[5,4,3,2,7,6,5,4,3,2]`,
compute `11 - (sum mod 11)` and map `11` to `0` and `10` to `9`. -/
def cuitDv (ds : List Nat) : Nat :=
  let sum := (ds.zip [5, 4, 3, 2, 7, 6, 5, 4, 3, 2]).foldl (fun a p => a + p.1 * p.2) 0
  let dv := 11 - sum % 11
  if dv = 11 then 0 else if dv = 10 then 9 else dv

/-- The digits of an identifier after stripping non-digit characters. -/
def cuitDigits (s : String) : List Nat :=
  (s.data.filter Char.isDigit).map charDigit

/-- `esCUITValido` from `src/server.js` (lines 89-99): strip non-digits,
require exactly 11 digits, and check the modulus-11 check digit computed
from the first 10 digits with weights `[5,4,3,2,7,6,5,4,3,2]`. -/
def esCUITValido (cuit : String) : Bool :=
  let s := (cuit.data.filter Char.isDigit).map charDigit
  if s.length ≠ 11 then false
  else
    let mult := [5, 4, 3, 2, 7, 6, 5, 4, 3, 2]
    let sum := (List.range 10).foldl (fun a i => a + s.getD i 0 * mult.getD i 0) 0
    let dv := 11 - sum % 11
    let dv2 := if dv = 11 then 0 else if dv = 10 then 9 else dv
    dv2 = s.getD 10 0

/-- The structured invoice request built by `parseMessage` and consumed by
the rest of the pipeline (the object literal at `src/server.js` lines
189-199).  `fecha` is the current ISO date, supplied as a parameter since
it comes from the wall clock; `pto_vta` and `cbte_tipo` come from the
process configuration and are likewise parameters of `parseMessage`. -/
structure Row where
  fecha : String
  cliente_nombre : String
  doc_tipo : String
  doc_nro : String
  concepto : Int
  detalle : String
  total : Option Rat
  pto_vta : Int
  cbte_tipo : Int
  deriving Repr, DecidableEq

/-- Try to match the regexp `(DNI|CUIT)\s*(\d+)` (case-insensitively) at
the head of `l` for one keyword `kw` (given upper-cased): consume the
keyword, skip whitespace greedily, and require at least one digit.  The
returned string is the maximal digit run (the capture `(\d+)`). -/
def matchKeywordDigits (kw : List Char) (l : List Char) : Option (List Char) :=
  match kw, l with
  | [], rest =>
      let digs := (rest.dropWhile jsIsSpace).takeWhile Char.isDigit
      if digs.isEmpty then none else some digs
  | _ :: _, [] => none
  | k :: ks, c :: cs => if c.toUpper = k then matchKeywordDigits ks cs else none

/-- One attempt of the regexp `/(DNI|CUIT)\s*(\d+)/i` at the current
position: the alternation tries `DNI` first, then `CUIT`.  Returns the
upper-cased keyword (the source immediately upper-cases the capture) and
the digit run. -/
def tryDocPattern (l : List Char) : Option (String × String) :=
  match matchKeywordDigits ['D', 'N', 'I'] l with
  | some d => some ("DNI", ⟨d⟩)
  | none =>
      match matchKeywordDigits ['C', 'U', 'I', 'T'] l with
      | some d => some ("CUIT", ⟨d⟩)
      | none => none

/-- The regexp search `docCampo.match(/(DNI|CUIT)\s*(\d+)/i)`: scan
left-to-right for the first position where the pattern matches. -/
def searchDocPattern : List Char → Option (String × String)
  | [] => none
  | c :: cs =>
      match tryDocPattern (c :: cs) with
      | some r => some r
      | none => searchDocPattern cs

/-- `parseMessage` from `src/server.js` (lines 173-200): split on `|`,
trim each field, fail (`null`, here `none`) with fewer than 4 fields;
otherwise read name, document field, description and total.  The document
field is searched for `(DNI|CUIT)\s*(\d+)`; without a match the type
defaults to `DNI` and the value is the field's digit characters. -/
def parseMessage (today : String) (ptoVta cbteTipo : Int) (text : String) :
    Option Row :=
  let parts := (splitOnChar '|' text.data).map (fun l => trimJs ⟨l⟩)
  if parts.length < 4 then none
  else
    let nombre := parts.getD 0 ""
    let docCampo := parts.getD 1 ""
    let detalle := parts.getD 2 ""
    let totalStr := parts.getD 3 ""
    let dtn :=
      match searchDocPattern docCampo.data with
      | some (t, d) => (t, d)
      | none => ("DNI", stripNonDigits docCampo)
    some {
      fecha := today
      cliente_nombre := nombre
      doc_tipo := dtn.1
      doc_nro := dtn.2
      concepto := 2
      detalle := detalle
      total := parseMonto totalStr
      pto_vta := ptoVta
      cbte_tipo := cbteTipo }

/-- `normalizarReceptor` from `src/server.js` (lines 203-219): coerce the
receptor to a submittable combination, downgrading to the final-consumer
category `CF` with value `"0"` whenever validation fails. -/
def normalizarReceptor (r : Row) : Row :=
  let dt := upperAscii r.doc_tipo
  if dt = "CUIT" then
    let n := stripNonDigits r.doc_nro
    if !esCUITValido n then { r with doc_tipo := "CF", doc_nro := "0" }
    else { r with doc_nro := n }
  else if dt = "DNI" then
    let n := stripNonDigits r.doc_nro
    if n.length < 7 || n.length > 8 then { r with doc_tipo := "CF", doc_nro := "0" }
    else { r with doc_nro := n }
  else
    { r with doc_tipo := "CF", doc_nro := "0" }

/-- A spreadsheet cell: the program writes strings and JS numbers (where a
number may be `NaN`, modelled as `Cell.num none`). -/
inductive Cell where
  | str (v : String)
  | num (v : Option Rat)
  deriving Repr, DecidableEq

/-- A sheet as returned by `sheets.spreadsheets.values.get` on range
`A:Z`: the list of rows, row `0` being the spreadsheet's header row. -/
abbrev Sheet := List (List Cell)

/-- The 14-element row written by `appendRow` (`src/server.js` lines
221-240): the nine request columns, then the status column `J` holding
`PENDIENTE`, then four empty result columns `K`-`N`. -/
def appendValues (row : Row) : List Cell :=
  [Cell.str row.fecha,
   Cell.str row.cliente_nombre,
   Cell.str row.doc_tipo,
   Cell.str row.doc_nro,
   Cell.num (some (row.concepto : Rat)),
   Cell.str row.detalle,
   Cell.num row.total,
   Cell.num (some (row.pto_vta : Rat)),
   Cell.num (some (row.cbte_tipo : Rat)),
   Cell.str "PENDIENTE",
   Cell.str "", Cell.str "", Cell.str "", Cell.str ""]

/-- `appendRow` as a sheet transformation: `values.append` adds the row
after the last row of the sheet. -/
def appendRow (sheet : Sheet) (row : Row) : Sheet :=
  sheet ++ [appendValues row]

/-- The test `rows[i][9] === 'PENDIENTE'` of the backward scans: column
`J` (index 9) holds the string `PENDIENTE`.  A missing cell (`undefined`)
compares unequal. -/
def pendienteAt (rows : Sheet) (i : Nat) : Bool :=
  match rows.get? i with
  | some r => r.get? 9 = some (Cell.str "PENDIENTE")
  | none => false

/-- The loop `for (let i = rows.length - 1; i >= 1; i--)` of
`updateLastRowWithResult` and `markLastRowError`: starting from index `i`
and counting down to `1` (row `0`, the header, is never inspected),
return the first index whose status column is `PENDIENTE`. -/
def scanDown (rows : Sheet) : Nat → Option Nat
  | 0 => none
  | i + 1 => if pendienteAt rows (i + 1) then some (i + 1) else scanDown rows i

/-- The index of the last `PENDIENTE` row, index `0` excluded. -/
def lastPendiente (rows : Sheet) : Option Nat :=
  match rows.length with
  | 0 => none
  | n + 1 => scanDown rows n

/-- A `values.update` on range `J<r>:N<r>`: overwrite columns 9-13 of a
row with the five given cells (the sheet pads short rows with empty
cells), leaving columns `A`-`I` and any column after `N` unchanged. -/
def setResultCols (r : List Cell) (vals : List Cell) : List Cell :=
  let padded := r ++ List.replicate (14 - r.length) (Cell.str "")
  padded.take 9 ++ vals ++ padded.drop 14

/-- The result of a successful `afip.ElectronicBilling.createNextVoucher`
call as used by the pipeline (`emitirFactura`'s return value at
`src/server.js` line 387). -/
structure AfipResult where
  CAE : String
  CAEFchVto : String
  voucher_number : Int
  deriving Repr, DecidableEq

/-- `updateLastRowWithResult` from `src/server.js` (lines 390-409): scan
backward for the last `PENDIENTE` row and overwrite its columns `J:N`
with `['EMITIDO', CAE, CAEFchVto, voucher_number, '']`; if no such row
exists the sheet is left untouched.  Also returns the 1-based row index
the source returns. -/
def updateLastRowWithResult (sheet : Sheet) (result : AfipResult) :
    Sheet × Option Nat :=
  match lastPendiente sheet with
  | none => (sheet, none)
  | some i =>
      (sheet.set i (setResultCols (sheet.getD i [])
        [Cell.str "EMITIDO", Cell.str result.CAE, Cell.str result.CAEFchVto,
         Cell.num (some (result.voucher_number : Rat)), Cell.str ""]),
       some (i + 1))

/-- `markLastRowError` from `src/server.js` (lines 412-431): scan backward
for the last `PENDIENTE` row and overwrite its columns `J:N` with
`['ERROR', '', '', '', String(errMsg).slice(0, 500)]`. -/
def markLastRowError (sheet : Sheet) (errMsg : String) : Sheet × Option Nat :=
  match lastPendiente sheet with
  | none => (sheet, none)
  | some i =>
      (sheet.set i (setResultCols (sheet.getD i [])
        [Cell.str "ERROR", Cell.str "", Cell.str "", Cell.str "",
         Cell.str (sliceJs errMsg 500)]),
       some (i + 1))

/-- The shape of the error values `humanError` inspects: an HTTP-style
response body that is either a plain string or an object with optional
`faultstring` and `error.message` fields. -/
inductive RespData where
  | str (s : String)
  | obj (faultstring : Option String) (errorMessage : Option String)
  deriving Repr, DecidableEq

/-- A JS exception as destructured by `humanError`: the optional chain
`e.response?.data` is collapsed into `data : Option RespData` (`none`
when `response` or `data` is absent), plus the standard `message`
property.  The final `JSON.stringify(e)` fallback depends on the whole
object including fields not modelled here, so the serializer is passed in
as a function argument. -/
structure JsError where
  data : Option RespData
  message : Option String
  deriving Repr, DecidableEq

/-- JS truthiness of an optional string property: present and non-empty. -/
def optTruthy : Option String → Bool
  | some s => !s.isEmpty
  | none => false

/-- `humanError` from `src/server.js` (lines 43-53): a falsy argument maps
to a fixed message; a string response body is sliced to 500 characters;
otherwise the first truthy one of `data.faultstring`, `data.error.message`
and `e.message` is returned as is; the last resort is the sliced
`JSON.stringify` of the error. -/
def humanError (stringify : JsError → String) (eo : Option JsError) : String :=
  match eo with
  | none => "Error desconocido"
  | some e =>
      match e.data with
      | some (RespData.str s) => sliceJs s 500
      | d =>
          let fs := match d with
            | some (RespData.obj f _) => f
            | _ => none
          let em := match d with
            | some (RespData.obj _ m) => m
            | _ => none
          if optTruthy fs then fs.getD ""
          else if optTruthy em then em.getD ""
          else if optTruthy e.message then e.message.getD ""
          else sliceJs (stringify e) 500

/-- The smallest decimal scale of a rational, when it has one: the least
`k` with `q * 10^k` integral (searched up to 30, far beyond any value a
double can carry). -/
def decExponent (q : Rat) : Option Nat :=
  (List.range 30).find? (fun k => (q * (10 : Rat) ^ k).den = 1)

/-- Left-pad a numeral with zeros to `k` digits. -/
def padZeros (s : String) (k : Nat) : String :=
  ⟨List.replicate (k - s.data.length) '0'⟩ ++ s

/-- JS number-to-string conversion (as used by `JSON.stringify`) for the
exact decimals this program produces: integers print with no point,
other decimals print with the shortest fraction part. -/
def jsNumRepr (q : Rat) : String :=
  if q.den = 1 then toString q.num
  else
    match decExponent q with
    | some k =>
        let m := (q * (10 : Rat) ^ k).num
        (if m < 0 then "-" else "") ++
          toString (m.natAbs / 10 ^ k) ++ "." ++
          padZeros (toString (m.natAbs % 10 ^ k)) k
    | none => toString q.num ++ "/" ++ toString q.den

/-- Hexadecimal digit characters, lower case, as `JSON.stringify` uses in
`\u00xx` escapes. -/
def hexLower (n : Nat) : Char :=
  "0123456789abcdef".data.getD n '0'

/-- The escape `JSON.stringify` applies to one character of a string. -/
def jsonEscapeChar (c : Char) : List Char :=
  if c = '"' then ['\\', '"']
  else if c = '\\' then ['\\', '\\']
  else if c = '\x08' then ['\\', 'b']
  else if c = '\t' then ['\\', 't']
  else if c = '\n' then ['\\', 'n']
  else if c = '\x0c' then ['\\', 'f']
  else if c = '\r' then ['\\', 'r']
  else if c.toNat < 32 then
    '\\' :: 'u' :: '0' :: '0' :: [hexLower (c.toNat / 16), hexLower (c.toNat % 16)]
  else [c]

/-- `JSON.stringify` of a string value. -/
def jsonStrRepr (s : String) : String :=
  "\"" ++ ⟨(s.data.map jsonEscapeChar).flatten⟩ ++ "\""

/-- A JSON value as this program serializes them: a JS number (`none` is
`NaN`, which `JSON.stringify` turns into `null`) or a string. -/
inductive JVal where
  | jnum (v : Option Rat)
  | jstr (s : String)
  deriving Repr

/-- `JSON.stringify` of one value. -/
def jvalRepr : JVal → String
  | JVal.jnum none => "null"
  | JVal.jnum (some q) => jsNumRepr q
  | JVal.jstr s => jsonStrRepr s

/-- `JSON.stringify` of the fields of an object literal, in insertion
order, comma-separated. -/
def jsonFieldsRepr : List (String × JVal) → String
  | [] => ""
  | [f] => jsonStrRepr f.1 ++ ":" ++ jvalRepr f.2
  | f :: g :: t =>
      jsonStrRepr f.1 ++ ":" ++ jvalRepr f.2 ++ "," ++ jsonFieldsRepr (g :: t)

/-- `JSON.stringify` of an object literal. -/
def jsonObjRepr (fields : List (String × JVal)) : String :=
  "\x7b" ++ jsonFieldsRepr fields ++ "\x7d"

/-- UTF-8 encoding of one character (`Buffer.from(string)` encodes
UTF-8). -/
def utf8Char (c : Char) : List Nat :=
  let n := c.toNat
  if n < 128 then [n]
  else if n < 2048 then [192 + n / 64, 128 + n % 64]
  else if n < 65536 then [224 + n / 4096, 128 + n / 64 % 64, 128 + n % 64]
  else [240 + n / 262144, 128 + n / 4096 % 64, 128 + n / 64 % 64, 128 + n % 64]

/-- The UTF-8 bytes of a string. -/
def utf8Bytes (s : String) : List Nat :=
  (s.data.map utf8Char).flatten

/-- The base64 alphabet. -/
def b64Char (n : Nat) : Char :=
  "ABCDEFGHIJKLMNOPQRSTUVWXYZabcdefghijklmnopqrstuvwxyz0123456789+/".data.getD n 'A'

/-- Standard base64 of a byte list, with `=` padding (the
`Buffer.prototype.toString('base64')` encoding). -/
def base64Chunks : List Nat → List Char
  | [] => []
  | [a] => [b64Char (a / 4), b64Char (a % 4 * 16), '=', '=']
  | [a, b] => [b64Char (a / 4), b64Char (a % 4 * 16 + b / 16), b64Char (b % 16 * 4), '=']
  | a :: b :: c :: rest =>
      b64Char (a / 4) :: b64Char (a % 4 * 16 + b / 16) ::
        b64Char (b % 16 * 4 + c / 64) :: b64Char (c % 64) :: base64Chunks rest

/-- The chain `.replace(/\+/g, '-').replace(/\//g, '_').replace(/=+$/, '')`
applied after base64: switch to the url alphabet and drop the trailing
padding. -/
def base64UrlNoPad (bytes : List Nat) : String :=
  ⟨(((base64Chunks bytes).map
      (fun c => if c = '+' then '-' else if c = '/' then '_' else c)).reverse.dropWhile
        (fun c => c = '=')).reverse⟩

/-- The inputs of `afipQrUrl` (`src/server.js` lines 257-276), as supplied
by `generarPDF`: the issue date, voucher coordinates, the amount (a JS
number, `none` = `NaN`), the receptor document type/number and the CAE. -/
structure QrArgs where
  fechaISO : String
  ptoVta : Int
  tipoCmp : Int
  nroCmp : Int
  importe : Option Rat
  tipoDocRec : Int
  nroDocRec : String
  cae : String
  deriving Repr

/-- The object literal `payload` of `afipQrUrl`, field by field in source
order.  `Number(tipoDocRec || 99)` maps the falsy `0` to `99`;
`Number(nroDocRec || 0)` maps the falsy empty string to `0` and converts
the digit string otherwise; `Number(cae)` converts the CAE digit string. -/
def qrPayloadFields (cuit : Int) (a : QrArgs) : List (String × JVal) :=
  [("ver", JVal.jnum (some 1)),
   ("fecha", JVal.jstr a.fechaISO),
   ("cuit", JVal.jnum (some (cuit : Rat))),
   ("ptoVta", JVal.jnum (some (a.ptoVta : Rat))),
   ("tipoCmp", JVal.jnum (some (a.tipoCmp : Rat))),
   ("nroCmp", JVal.jnum (some (a.nroCmp : Rat))),
   ("importe", JVal.jnum a.importe),
   ("moneda", JVal.jstr "PES"),
   ("ctz", JVal.jnum (some 1)),
   ("tipoDocRec", JVal.jnum (some ((if a.tipoDocRec = 0 then 99 else a.tipoDocRec : Int) : Rat))),
   ("nroDocRec", JVal.jnum (if a.nroDocRec.isEmpty then some 0 else jsNumber a.nroDocRec.data)),
   ("tipoCodAut", JVal.jstr "E"),
   ("codAut", JVal.jnum (jsNumber a.cae.data))]

/-- `afipQrUrl` from `src/server.js` (lines 257-276): serialize the
payload object, base64url-encode it without padding and append it to the
fixed verification-portal prefix.  `cuit` is the configured
`AFIP_CUIT`. -/
def afipQrUrl (cuit : Int) (a : QrArgs) : String :=
  "https://www.afip.gob.ar/fe/qr/?p=" ++
    base64UrlNoPad (utf8Bytes (jsonObjRepr (qrPayloadFields cuit a)))

/-- The `QrArgs` that `generarPDF` (`src/server.js` lines 307-316) passes
to `afipQrUrl` for a given request row and authorization result. -/
def qrArgsOfRow (row : Row) (result : AfipResult) : QrArgs :=
  { fechaISO := row.fecha
    ptoVta := row.pto_vta
    tipoCmp := row.cbte_tipo
    nroCmp := result.voucher_number
    importe := row.total
    tipoDocRec :=
      if upperAscii row.doc_tipo = "CUIT" then 80
      else if upperAscii row.doc_tipo = "DNI" then 96
      else 99
    nroDocRec := row.doc_nro
    cae := result.CAE }

/-- The compliance QR payload exactly as the spec's §6 lists it, written
as a JSON text template (spec-side definition, for comparison with
`afipQrUrl`): the fields `ver, fecha, cuit, ptoVta, tipoCmp, nroCmp,
importe, moneda, ctz, tipoDocRec, nroDocRec, tipoCodAut, codAut` in this
order, with the constants `ver = 1`, `moneda = "PES"`, `ctz = 1`,
`tipoCodAut = "E"` and no other field (in particular no generation
timestamp). -/
def qrPayloadSpecJson (cuit : Int) (a : QrArgs) : String :=
  "\x7b\"ver\":1,\"fecha\":" ++ jsonStrRepr a.fechaISO ++
  ",\"cuit\":" ++ jsNumRepr (cuit : Rat) ++
  ",\"ptoVta\":" ++ jsNumRepr (a.ptoVta : Rat) ++
  ",\"tipoCmp\":" ++ jsNumRepr (a.tipoCmp : Rat) ++
  ",\"nroCmp\":" ++ jsNumRepr (a.nroCmp : Rat) ++
  ",\"importe\":" ++ jvalRepr (JVal.jnum a.importe) ++
  ",\"moneda\":\"PES\",\"ctz\":1,\"tipoDocRec\":" ++
  jsNumRepr ((if a.tipoDocRec = 0 then 99 else a.tipoDocRec : Int) : Rat) ++
  ",\"nroDocRec\":" ++
  jvalRepr (JVal.jnum (if a.nroDocRec.isEmpty then some 0 else jsNumber a.nroDocRec.data)) ++
  ",\"tipoCodAut\":\"E\",\"codAut\":" ++
  jvalRepr (JVal.jnum (jsNumber a.cae.data)) ++ "\x7d"

/-- The observable actions of one run of the message handler, in order:
chat notifications, the document send, the authorization submission, the
document render, the archive upload, and the two ledger write-backs. -/
inductive Act where
  | tg (m : String)
  | tgDoc
  | afipCall
  | pdfRender
  | driveUpload
  | markErr (m : String)
  | updateRow
  deriving Repr, DecidableEq

/-- Outcomes of the external calls of one pipeline run, supplied as
oracles: the ledger append, the authorization call (whose failure carries
the caught JS exception), the document render, the archive configuration
and upload, and the final ledger update.  Error strings for the steps
other than AFIP are the already-humanized messages `logError` returns. -/
structure Outcomes where
  append : Except String Unit
  afip : Except (Option JsError) AfipResult
  pdfOk : Bool
  driveConfigured : Bool
  drive : Except String (Option String)
  update : Except String Unit

/-- The body of `bot.on('message')` from `src/server.js` (lines 434-532),
as a function of the incoming text, the step outcomes and the current
sheet, returning the final sheet and the trace of actions.  The watchdog
timer is purely observational (it only ever sends an extra notice) and is
not modelled. -/
def handleMessage (today : String) (ptoVta cbteTipo : Int)
    (stringify : JsError → String) (text : String) (o : Outcomes)
    (sheet : Sheet) : Sheet × List Act :=
  let t := trimJs text
  if t = "/start" then
    (sheet, [Act.tg "Hola! Enviame: Nombre | DNI o CUIT | Detalle | Total\nEjemplo:\nJuan Perez | DNI 12345678 | Servicio de diseño | 5000"])
  else
    match parseMessage today ptoVta cbteTipo t with
    | none => (sheet, [Act.tg "Formato incorrecto. Usá: Nombre | DNI o CUIT | Detalle | Total"])
    | some parsed =>
        match o.append with
        | Except.error e => (sheet, [Act.tg ("❌ Error en Google Sheets: " ++ e)])
        | Except.ok _ =>
            let sheet1 := appendRow sheet parsed
            let acts1 := [Act.tg "⏳ Recibí los datos. Estoy emitiendo la factura…",
                          Act.tg "➡️ Enviando solicitud a AFIP…", Act.afipCall]
            match o.afip with
            | Except.error e =>
                let msgErr := humanError stringify e
                let sheet2 := (markLastRowError sheet1 ("AFIP: " ++ msgErr)).1
                (sheet2,
                 acts1 ++ [Act.markErr (sliceJs ("AFIP: " ++ msgErr) 500),
                           Act.tg ("❌ Error en AFIP: " ++ msgErr)])
            | Except.ok result =>
                let acts2 := acts1 ++
                  [Act.tg ("🧾 AFIP respondió. Generando PDF… (CAE " ++ result.CAE ++ ")")]
                let acts3 := acts2 ++
                  (if o.pdfOk then [Act.pdfRender, Act.tgDoc]
                   else [Act.pdfRender,
                         Act.tg "⚠️ La factura salió pero no pude adjuntar el PDF."])
                let acts4 := acts3 ++
                  (if o.driveConfigured then
                     [Act.tg "☁️ Subiendo copia a Drive…", Act.driveUpload] ++
                       (match o.drive with
                        | Except.ok (some link) =>
                            [Act.tg ("📄 Guardé una copia en Drive: " ++ link)]
                        | Except.ok none => []
                        | Except.error _ =>
                            [Act.tg "⚠️ No pude subir a Drive, pero la factura fue emitida."])
                   else [])
                match o.update with
                | Except.error e =>
                    (sheet1,
                     acts4 ++ [Act.updateRow,
                       Act.tg ("✅ Factura emitida\nCAE: " ++ result.CAE ++
                         "\nVence: " ++ result.CAEFchVto ++ "\nNro: " ++
                         toString result.voucher_number ++
                         "\n⚠️ No pude escribir el resultado en tu planilla: " ++ e)])
                | Except.ok _ =>
                    let sheet2 := (updateLastRowWithResult sheet1 result).1
                    (sheet2,
                     acts4 ++ [Act.updateRow,
                       Act.tg ("✅ Factura emitida\nCAE: " ++ result.CAE ++
                         "\nVence: " ++ result.CAEFchVto ++ "\nNro: " ++
                         toString result.voucher_number)])

/-- A sample command text for concrete instantiations. -/
def textSample : String := "Juan Perez | DNI 12345678 | Servicio | 5000"

/-- The request `parseMessage` produces for `textSample` (with sales
point 1 and voucher type 11 on 2025-10-11). -/
def pSample : Row :=
  { fecha := "2025-10-11", cliente_nombre := "Juan Perez", doc_tipo := "DNI",
    doc_nro := "12345678", concepto := 2, detalle := "Servicio",
    total := parseMonto "5000", pto_vta := 1, cbte_tipo := 11 }

/-- A sample caught AFIP exception: a timeout error with only a
`message` property. -/
def eSample : Option JsError :=
  some { data := none, message := some "AFIP createNextVoucher timeout a 20000ms" }

/-- Outcomes of a run whose authorization step fails with `eSample` and
whose other steps succeed. -/
def outcomesAfipFail : Outcomes :=
  { append := Except.ok (), afip := Except.error eSample, pdfOk := true,
    driveConfigured := false, drive := Except.ok none, update := Except.ok () }

/-- A sample two-row sheet for concrete instantiations: a header row and
one data row in `PENDIENTE` state. -/
def sheetSample : Sheet :=
  [[Cell.str "Fecha", Cell.str "Cliente"],
   [Cell.str "2025-10-11", Cell.str "Juan Perez", Cell.str "DNI",
    Cell.str "12345678", Cell.str "2", Cell.str "Servicio", Cell.str "5000",
    Cell.str "1", Cell.str "11", Cell.str "PENDIENTE",
    Cell.str "", Cell.str "", Cell.str "", Cell.str ""]]

/-- A sample authorization result for concrete instantiations. -/
def resSample : AfipResult :=
  { CAE := "75123456789012", CAEFchVto := "2025-10-21", voucher_number := 17 }

end Facturacion

namespace Facturacion

example : parseMonto "5.000,50" = some (10001 / 2 : Rat) := by
  have h : jsNumberParts (montoCleaned "5.000,50") = some (500050, 2) := by decide
  simp [parseMonto, jsNumber, h, decValue]
  norm_num
example : parseMonto "5,000.50" = some (10001 / 2000 : Rat) := by
  have h : jsNumberParts (montoCleaned "5,000.50") = some (500050, 5) := by decide
  simp [parseMonto, jsNumber, h, decValue]
  norm_num
example : parseMonto "5000.50" = some (10001 / 2 : Rat) := by
  have h : jsNumberParts (montoCleaned "5000.50") = some (500050, 2) := by decide
  simp [parseMonto, jsNumber, h, decValue]
  norm_num
example : parseMonto "abc5000xyz" = some 5000 := by
  have h : jsNumberParts (montoCleaned "abc5000xyz") = some (5000, 0) := by decide
  simp [parseMonto, jsNumber, h, decValue]
example : esCUITValido "20409378472" = true := by decide
example : esCUITValido "20409378473" = false := by decide
example : esCUITValido "20-40937847-2" = true := by decide

example :
    searchDocPattern ("DNI 12345678".data) = some ("DNI", "12345678") := by decide
example :
    searchDocPattern ("cuit20409378472".data) = some ("CUIT", "20409378472") := by decide
example : searchDocPattern ("doc 123".data) = none := by decide
example :
    (parseMessage "2025-10-11" 1 11
      "Juan Perez | DNI 12345678 | Servicio de diseño | 5000").map
        (fun r => (r.cliente_nombre, r.doc_tipo, r.doc_nro, r.detalle)) =
      some ("Juan Perez", "DNI", "12345678", "Servicio de diseño") := by decide
example : parseMessage "2025-10-11" 1 11 "a | b | c" = none := by decide
example :
    normalizarReceptor
      { fecha := "f", cliente_nombre := "n", doc_tipo := "CUIT",
        doc_nro := "123", concepto := 2, detalle := "d", total := some 1,
        pto_vta := 1, cbte_tipo := 11 } =
      { fecha := "f", cliente_nombre := "n", doc_tipo := "CF",
        doc_nro := "0", concepto := 2, detalle := "d", total := some 1,
        pto_vta := 1, cbte_tipo := 11 } := by decide

/-- C1 counterexample: the claim asserts `parseMonto("5,000.50") ==
5000.50`, but the code's first branch deletes the dots and makes the
comma the decimal point, so the value is `5.0005`, not `5000.5`. -/
theorem parseMonto_mixed_us_claim_false :
    parseMonto "5,000.50" ≠ some (10001 / 2 : Rat) := by
  have h : jsNumberParts (montoCleaned "5,000.50") = some (500050, 5) := by decide
  simp [parseMonto, jsNumber, h, decValue]
  norm_num

/-- C1 (amended): `parseMonto` follows the spec's separator table exactly
(`parseLocaleAmountSpec` is that table verbatim), and the worked examples
hold with the third corrected to its actual value: `"5.000,50" ↦ 5000.5`,
`"5,000.50" ↦ 5.0005` (the comma is taken as the decimal separator, not
the dot), `"5000.50" ↦ 5000.5`, `"abc5000xyz" ↦ 5000`. -/
theorem parseMonto_separator_table :
    (∀ s, parseMonto s = parseLocaleAmountSpec s) ∧
      parseMonto "5.000,50" = some (10001 / 2 : Rat) ∧
      parseMonto "5,000.50" = some (10001 / 2000 : Rat) ∧
      parseMonto "5000.50" = some (10001 / 2 : Rat) ∧
      parseMonto "abc5000xyz" = some 5000 := by
  refine ⟨fun s => ?_, ?_, ?_, ?_, ?_⟩
  · unfold parseMonto montoCleaned parseLocaleAmountSpec
    by_cases hd : '.' ∈ (trimJs s).data <;>
      by_cases hc : ',' ∈ (trimJs s).data <;>
        simp [hd, hc]
  · have h : jsNumberParts (montoCleaned "5.000,50") = some (500050, 2) := by decide
    simp [parseMonto, jsNumber, h, decValue]
    norm_num
  · have h : jsNumberParts (montoCleaned "5,000.50") = some (500050, 5) := by decide
    simp [parseMonto, jsNumber, h, decValue]
    norm_num
  · have h : jsNumberParts (montoCleaned "5000.50") = some (500050, 2) := by decide
    simp [parseMonto, jsNumber, h, decValue]
    norm_num
  · have h : jsNumberParts (montoCleaned "abc5000xyz") = some (5000, 0) := by decide
    simp [parseMonto, jsNumber, h, decValue]

/-- C2: `esCUITValido` accepts a string exactly when its digit-stripped
form has 11 digits and the modulus-11 check digit of the first 10 digits
(weights `[5,4,3,2,7,6,5,4,3,2]`, `11↦0`, `10↦9`) equals the 11th digit;
any stripped length other than 11 is rejected. -/
theorem esCUITValido_checksum_iff (s : String) :
    esCUITValido s = true ↔
      (cuitDigits s).length = 11 ∧
        cuitDv ((cuitDigits s).take 10) = (cuitDigits s).getD 10 0 := by
  unfold esCUITValido cuitDigits cuitDv
  generalize (s.data.filter Char.isDigit).map charDigit = d
  by_cases h : d.length = 11
  · obtain ⟨a0, d, rfl⟩ := List.exists_of_length_succ d h
    simp only [List.length_cons, Nat.succ.injEq] at h
    obtain ⟨a1, d, rfl⟩ := List.exists_of_length_succ d h
    simp only [List.length_cons, Nat.succ.injEq] at h
    obtain ⟨a2, d, rfl⟩ := List.exists_of_length_succ d h
    simp only [List.length_cons, Nat.succ.injEq] at h
    obtain ⟨a3, d, rfl⟩ := List.exists_of_length_succ d h
    simp only [List.length_cons, Nat.succ.injEq] at h
    obtain ⟨a4, d, rfl⟩ := List.exists_of_length_succ d h
    simp only [List.length_cons, Nat.succ.injEq] at h
    obtain ⟨a5, d, rfl⟩ := List.exists_of_length_succ d h
    simp only [List.length_cons, Nat.succ.injEq] at h
    obtain ⟨a6, d, rfl⟩ := List.exists_of_length_succ d h
    simp only [List.length_cons, Nat.succ.injEq] at h
    obtain ⟨a7, d, rfl⟩ := List.exists_of_length_succ d h
    simp only [List.length_cons, Nat.succ.injEq] at h
    obtain ⟨a8, d, rfl⟩ := List.exists_of_length_succ d h
    simp only [List.length_cons, Nat.succ.injEq] at h
    obtain ⟨a9, d, rfl⟩ := List.exists_of_length_succ d h
    simp only [List.length_cons, Nat.succ.injEq] at h
    obtain ⟨a10, d, rfl⟩ := List.exists_of_length_succ d h
    simp only [List.length_cons, Nat.succ.injEq] at h
    have hrest : d = [] := List.length_eq_zero.mp h
    subst hrest
    have hr : List.range 10 = [0, 1, 2, 3, 4, 5, 6, 7, 8, 9] := by decide
    simp [hr, List.getD, List.foldl, List.zip]
  · constructor
    · intro hc
      exfalso
      simp only [if_neg] at hc
      rw [if_pos h] at hc
      exact Bool.false_ne_true hc
    · rintro ⟨h11, -⟩
      exact absurd h11 h

theorem stripNonDigits_idem (s : String) :
    stripNonDigits (stripNonDigits s) = stripNonDigits s := by
  unfold stripNonDigits
  simp [List.filter_filter]

theorem esCUITValido_stripNonDigits (s : String) :
    esCUITValido (stripNonDigits s) = esCUITValido s := by
  unfold esCUITValido stripNonDigits
  simp [List.filter_filter]

/-- C3: `normalizarReceptor` is a total function following the rule
table: an (upper-cased) `CUIT` with an invalid checksum, a `DNI` whose
stripped digits are not 7 or 8 long, and any other category are all
downgraded to `CF` with value `"0"`; valid `CUIT`/`DNI` requests keep
their category and get the digit-stripped identifier, all other fields
untouched. -/
theorem normalizarReceptor_rules (r : Row) :
    (upperAscii r.doc_tipo = "CUIT" →
       (esCUITValido (stripNonDigits r.doc_nro) = false →
          normalizarReceptor r = { r with doc_tipo := "CF", doc_nro := "0" }) ∧
       (esCUITValido (stripNonDigits r.doc_nro) = true →
          normalizarReceptor r = { r with doc_nro := stripNonDigits r.doc_nro })) ∧
    (upperAscii r.doc_tipo = "DNI" →
       (((stripNonDigits r.doc_nro).length < 7 ∨ 8 < (stripNonDigits r.doc_nro).length) →
          normalizarReceptor r = { r with doc_tipo := "CF", doc_nro := "0" }) ∧
       (7 ≤ (stripNonDigits r.doc_nro).length → (stripNonDigits r.doc_nro).length ≤ 8 →
          normalizarReceptor r = { r with doc_nro := stripNonDigits r.doc_nro })) ∧
    (upperAscii r.doc_tipo ≠ "CUIT" → upperAscii r.doc_tipo ≠ "DNI" →
       normalizarReceptor r = { r with doc_tipo := "CF", doc_nro := "0" }) := by
  unfold normalizarReceptor
  refine ⟨fun h1 => ⟨fun hv => ?_, fun hv => ?_⟩,
          fun h1 => ⟨fun hl => ?_, fun hl7 hl8 => ?_⟩,
          fun h1 h2 => ?_⟩
  · simp [h1, hv]
  · simp [h1, hv]
  · have : upperAscii r.doc_tipo ≠ "CUIT" := by simp [h1]
    simp only [h1, this]
    simp
    omega
  · have : upperAscii r.doc_tipo ≠ "CUIT" := by simp [h1]
    simp only [h1, this]
    simp
    omega
  · simp [h1, h2]

/-- C10: `normalizarReceptor` is idempotent — a request that is already
normalized (valid stripped CUIT, valid-length stripped DNI, or the
downgraded `CF`/`"0"` form) passes through unchanged. -/
theorem normalizarReceptor_idem (r : Row) :
    normalizarReceptor (normalizarReceptor r) = normalizarReceptor r := by
  have hCF : upperAscii "CF" = "CF" := by decide
  unfold normalizarReceptor
  by_cases h1 : upperAscii r.doc_tipo = "CUIT"
  · by_cases h2 : esCUITValido (stripNonDigits r.doc_nro) = true
    · simp [h1, h2, esCUITValido_stripNonDigits, stripNonDigits_idem]
    · simp [h1, h2, hCF]
  · by_cases h1d : upperAscii r.doc_tipo = "DNI"
    · by_cases h2 : 7 ≤ (stripNonDigits r.doc_nro).length ∧ (stripNonDigits r.doc_nro).length ≤ 8
      · have hc : ¬((stripNonDigits r.doc_nro).length < 7 ∨ 8 < (stripNonDigits r.doc_nro).length) := by
          omega
        simp [h1, h1d, hc, stripNonDigits_idem]
      · have hc : (stripNonDigits r.doc_nro).length < 7 ∨ 8 < (stripNonDigits r.doc_nro).length := by
          omega
        simp [h1, h1d, hc, hCF]
    · simp [h1, h1d, hCF]

/-- C4: `parseMessage` splits on `|` into trimmed fields, returns the
malformed-command signal (`none`) for every input with fewer than 4
fields, fills the request from the four fields with the document field
decided by the `(DNI|CUIT)\s*(\d+)` search (defaulting to `DNI` with the
field's digit characters), and parses the spec's worked example as
stated. -/
theorem parseMessage_rules (today : String) (pv ct : Int) :
    (∀ text, (splitOnChar '|' text.data).length < 4 →
        parseMessage today pv ct text = none) ∧
    (∀ text r, parseMessage today pv ct text = some r →
        r.fecha = today ∧
        r.cliente_nombre = ((splitOnChar '|' text.data).map (fun l => trimJs ⟨l⟩)).getD 0 "" ∧
        r.detalle = ((splitOnChar '|' text.data).map (fun l => trimJs ⟨l⟩)).getD 2 "" ∧
        r.total = parseMonto (((splitOnChar '|' text.data).map (fun l => trimJs ⟨l⟩)).getD 3 "") ∧
        r.concepto = 2 ∧ r.pto_vta = pv ∧ r.cbte_tipo = ct ∧
        ((∃ t d, searchDocPattern (((splitOnChar '|' text.data).map (fun l => trimJs ⟨l⟩)).getD 1 "").data = some (t, d) ∧
            r.doc_tipo = t ∧ r.doc_nro = d) ∨
         (searchDocPattern (((splitOnChar '|' text.data).map (fun l => trimJs ⟨l⟩)).getD 1 "").data = none ∧
            r.doc_tipo = "DNI" ∧
            r.doc_nro = stripNonDigits (((splitOnChar '|' text.data).map (fun l => trimJs ⟨l⟩)).getD 1 "")))) ∧
    parseMessage today pv ct "Juan Perez | DNI 12345678 | Servicio de diseño | 5000" =
      some { fecha := today, cliente_nombre := "Juan Perez", doc_tipo := "DNI",
             doc_nro := "12345678", concepto := 2, detalle := "Servicio de diseño",
             total := some 5000, pto_vta := pv, cbte_tipo := ct } := by
  refine ⟨fun text h => ?_, fun text r h => ?_, ?_⟩
  · unfold parseMessage
    have hm : ((splitOnChar '|' text.data).map (fun l => trimJs ⟨l⟩)).length < 4 := by
      simpa using h
    rw [if_pos hm]
  · unfold parseMessage at h
    by_cases hl : ((splitOnChar '|' text.data).map (fun l => trimJs ⟨l⟩)).length < 4
    · rw [if_pos hl] at h
      cases h
    · rw [if_neg hl] at h
      dsimp only at h
      cases hsd : searchDocPattern ((((splitOnChar '|' text.data).map (fun l => trimJs ⟨l⟩)).getD 1 "").data) with
      | none =>
          rw [hsd] at h
          injection h with h
          subst h
          exact ⟨rfl, rfl, rfl, rfl, rfl, rfl, rfl, Or.inr ⟨rfl, rfl, rfl⟩⟩
      | some td =>
          rw [hsd] at h
          injection h with h
          subst h
          exact ⟨rfl, rfl, rfl, rfl, rfl, rfl, rfl, Or.inl ⟨td.1, td.2, rfl, rfl, rfl⟩⟩
  · have hparts :
        (splitOnChar '|' ("Juan Perez | DNI 12345678 | Servicio de diseño | 5000").data).map
          (fun l => trimJs ⟨l⟩) =
        ["Juan Perez", "DNI 12345678", "Servicio de diseño", "5000"] := by decide
    have hsd : searchDocPattern ("DNI 12345678".data) = some ("DNI", "12345678") := by decide
    have ht : parseMonto "5000" = some (5000 : Rat) := by
      have h : jsNumberParts (montoCleaned "5000") = some (5000, 0) := by decide
      simp [parseMonto, jsNumber, h, decValue]
    unfold parseMessage
    rw [hparts]
    simp [hsd, ht]

/-- Witness for C3: a request with category `CUIT` and the
checksum-invalid identifier `"123"` is downgraded to `CF`/`"0"`. -/
theorem normalizarReceptor_rules_witness :
    normalizarReceptor
      { fecha := "2025-10-11", cliente_nombre := "X", doc_tipo := "CUIT",
        doc_nro := "123", concepto := 2, detalle := "d", total := none,
        pto_vta := 1, cbte_tipo := 11 } =
      { fecha := "2025-10-11", cliente_nombre := "X", doc_tipo := "CF",
        doc_nro := "0", concepto := 2, detalle := "d", total := none,
        pto_vta := 1, cbte_tipo := 11 } :=
  ((normalizarReceptor_rules
      { fecha := "2025-10-11", cliente_nombre := "X", doc_tipo := "CUIT",
        doc_nro := "123", concepto := 2, detalle := "d", total := none,
        pto_vta := 1, cbte_tipo := 11 }).1 (by decide)).1 (by decide)

/-- Witness for C4: a 3-field command is rejected as malformed. -/
theorem parseMessage_rules_witness :
    parseMessage "2025-10-11" 1 11 "a | b | c" = none :=
  (parseMessage_rules "2025-10-11" 1 11).1 "a | b | c" (by decide)

theorem pendienteAt_lt (rows : Sheet) (i : Nat) (h : pendienteAt rows i = true) :
    i < rows.length := by
  unfold pendienteAt at h
  cases hg : rows.get? i with
  | none => rw [hg] at h; cases h
  | some r => exact (List.get?_eq_some.mp hg).1

theorem scanDown_sound (rows : Sheet) :
    ∀ i j, scanDown rows i = some j → 1 ≤ j ∧ j ≤ i ∧ pendienteAt rows j = true := by
  intro i
  induction i with
  | zero => intro j h; cases h
  | succ n ih =>
      intro j h
      unfold scanDown at h
      by_cases hp : pendienteAt rows (n + 1) = true
      · rw [if_pos hp] at h
        injection h with h
        subst h
        exact ⟨Nat.succ_le_succ (Nat.zero_le n), Nat.le_refl _, hp⟩
      · rw [if_neg hp] at h
        obtain ⟨h1, h2, h3⟩ := ih j h
        exact ⟨h1, Nat.le_succ_of_le h2, h3⟩

theorem scanDown_none (rows : Sheet) :
    ∀ i, scanDown rows i = none → ∀ j, 1 ≤ j → j ≤ i → pendienteAt rows j = false := by
  intro i
  induction i with
  | zero => intro _ j h1 h2; omega
  | succ n ih =>
      intro h j h1 h2
      unfold scanDown at h
      by_cases hp : pendienteAt rows (n + 1) = true
      · rw [if_pos hp] at h; cases h
      · rw [if_neg hp] at h
        rcases Nat.lt_or_ge j (n + 1) with hj | hj
        · exact ih h j h1 (by omega)
        · have : j = n + 1 := by omega
          subst this
          simpa using hp

theorem scanDown_found (rows : Sheet) :
    ∀ i j, 1 ≤ j → j ≤ i → pendienteAt rows j = true →
      ∃ k, scanDown rows i = some k := by
  intro i
  induction i with
  | zero => intro j h1 h2 _; omega
  | succ n ih =>
      intro j h1 h2 hp
      unfold scanDown
      by_cases hn : pendienteAt rows (n + 1) = true
      · exact ⟨n + 1, if_pos hn⟩
      · rw [if_neg hn]
        rcases Nat.lt_or_ge j (n + 1) with hj | hj
        · exact ih j h1 (by omega) hp
        · have : j = n + 1 := by omega
          subst this
          exact absurd hp hn

theorem lastPendiente_unique (rows : Sheet) (i : Nat) (h1 : 1 ≤ i)
    (hp : pendienteAt rows i = true)
    (huniq : ∀ j, 1 ≤ j → pendienteAt rows j = true → j = i) :
    lastPendiente rows = some i := by
  have hlt : i < rows.length := pendienteAt_lt rows i hp
  unfold lastPendiente
  cases hlen : rows.length with
  | zero => omega
  | succ n =>
      have hi : i ≤ n := by omega
      obtain ⟨k, hk⟩ := scanDown_found rows n i h1 hi hp
      obtain ⟨hk1, _, hk3⟩ := scanDown_sound rows n k hk
      show scanDown rows n = some i
      rw [hk, huniq k hk1 hk3]

theorem lastPendiente_none (rows : Sheet)
    (h : ∀ j, 1 ≤ j → pendienteAt rows j = false) :
    lastPendiente rows = none := by
  unfold lastPendiente
  cases hlen : rows.length with
  | zero => rfl
  | succ n =>
      cases hk : scanDown rows n with
      | none => exact hk
      | some k =>
          obtain ⟨hk1, _, hk3⟩ := scanDown_sound rows n k hk
          rw [h k hk1] at hk3
          cases hk3

/-- C7: `updateLastRowWithResult` scans backward from the last row; when
no data row is `PENDIENTE` it leaves the ledger untouched, and when
exactly one data row is `PENDIENTE` it rewrites exactly that row —
status `EMITIDO`, the CAE, its expiry and the voucher number in the
result columns — and no other row of the ledger. -/
theorem setResultCols_gets (r : List Cell) (c0 c1 c2 c3 c4 : Cell) :
    (setResultCols r [c0, c1, c2, c3, c4]).get? 9 = some c0 ∧
    (setResultCols r [c0, c1, c2, c3, c4]).get? 10 = some c1 ∧
    (setResultCols r [c0, c1, c2, c3, c4]).get? 11 = some c2 ∧
    (setResultCols r [c0, c1, c2, c3, c4]).get? 12 = some c3 ∧
    (setResultCols r [c0, c1, c2, c3, c4]).get? 13 = some c4 := by
  unfold setResultCols
  have hlen9 : ((r ++ List.replicate (14 - r.length) (Cell.str "")).take 9).length = 9 := by
    simp [List.length_take, List.length_replicate]
    omega
  have hmin : ∀ L : Nat, 9 ⊓ (L + (14 - L)) = 9 := fun L => by omega
  refine ⟨?_, ?_, ?_, ?_, ?_⟩ <;>
    · rw [List.append_assoc, List.get?_append_right (by simp [hlen9])]
      simp [hmin]

theorem lastPendiente_sound (rows : Sheet) (i : Nat)
    (h : lastPendiente rows = some i) :
    1 ≤ i ∧ pendienteAt rows i = true := by
  unfold lastPendiente at h
  cases hlen : rows.length with
  | zero => rw [hlen] at h; cases h
  | succ n =>
      rw [hlen] at h
      obtain ⟨h1, _, h3⟩ := scanDown_sound rows n i h
      exact ⟨h1, h3⟩

theorem updateLastRowWithResult_frame (sheet : Sheet) (res : AfipResult) :
    ((∀ j, 1 ≤ j → pendienteAt sheet j = false) →
        (updateLastRowWithResult sheet res).1 = sheet) ∧
    (∀ i, 1 ≤ i → pendienteAt sheet i = true →
        (∀ j, 1 ≤ j → pendienteAt sheet j = true → j = i) →
        (∀ j, j ≠ i →
            (updateLastRowWithResult sheet res).1.get? j = sheet.get? j) ∧
        ∃ nr, (updateLastRowWithResult sheet res).1.get? i = some nr ∧
          nr.get? 9 = some (Cell.str "EMITIDO") ∧
          nr.get? 10 = some (Cell.str res.CAE) ∧
          nr.get? 11 = some (Cell.str res.CAEFchVto) ∧
          nr.get? 12 = some (Cell.num (some (res.voucher_number : Rat))) ∧
          nr.get? 13 = some (Cell.str "")) := by
  constructor
  · intro h
    unfold updateLastRowWithResult
    rw [lastPendiente_none sheet h]
  · intro i h1 hp huniq
    have hlt : i < sheet.length := pendienteAt_lt sheet i hp
    unfold updateLastRowWithResult
    rw [lastPendiente_unique sheet i h1 hp huniq]
    constructor
    · intro j hj
      exact List.get?_set_ne _ _ (Ne.symm hj)
    · exact ⟨_, List.get?_set_eq_of_lt _ (by simpa using hlt),
        setResultCols_gets (sheet.getD i []) _ _ _ _ _⟩

/-- Witness for C7: on a ledger with a header and exactly one `PENDIENTE`
data row, the header stays untouched and the data row ends with status
`EMITIDO`. -/
theorem updateLastRowWithResult_frame_witness :
    (updateLastRowWithResult sheetSample resSample).1.get? 0 = sheetSample.get? 0 ∧
    ((updateLastRowWithResult sheetSample resSample).1.get? 1).map
        (fun nr => nr.get? 9) = some (some (Cell.str "EMITIDO")) := by
  have h := (updateLastRowWithResult_frame sheetSample resSample).2 1 (by decide)
    (by decide)
    (by
      intro j h1 hp
      have hlt := pendienteAt_lt _ _ hp
      have h2 : sheetSample.length = 2 := rfl
      omega)
  refine ⟨h.1 0 (by decide), ?_⟩
  obtain ⟨nr, hnr, h9, -, -, -, -⟩ := h.2
  rw [hnr]
  simpa [← List.get?_eq_getElem?] using h9

/-- C9: the status column only ever receives `PENDIENTE`, `EMITIDO` or
`ERROR`: `appendRow` appends a 14-column row with `PENDIENTE` in column
J (index 9), and the only other writers of that column —
`updateLastRowWithResult` and `markLastRowError` — rewrite exactly one
row that was `PENDIENTE` to `EMITIDO` resp. `ERROR`, leaving every other
row unchanged. -/
theorem ledger_status_writers :
    (∀ r : Row, (appendValues r).length = 14 ∧
        (appendValues r).get? 9 = some (Cell.str "PENDIENTE")) ∧
    (∀ (sheet : Sheet) (res : AfipResult) (j : Nat),
        (updateLastRowWithResult sheet res).1.get? j = sheet.get? j ∨
        (1 ≤ j ∧ pendienteAt sheet j = true ∧
          ∃ nr, (updateLastRowWithResult sheet res).1.get? j = some nr ∧
            nr.get? 9 = some (Cell.str "EMITIDO"))) ∧
    (∀ (sheet : Sheet) (msg : String) (j : Nat),
        (markLastRowError sheet msg).1.get? j = sheet.get? j ∨
        (1 ≤ j ∧ pendienteAt sheet j = true ∧
          ∃ nr, (markLastRowError sheet msg).1.get? j = some nr ∧
            nr.get? 9 = some (Cell.str "ERROR"))) := by
  refine ⟨fun r => ⟨rfl, rfl⟩, fun sheet res j => ?_, fun sheet msg j => ?_⟩
  · unfold updateLastRowWithResult
    cases hl : lastPendiente sheet with
    | none => exact Or.inl rfl
    | some i =>
        obtain ⟨h1, hp⟩ := lastPendiente_sound sheet i hl
        by_cases hj : j = i
        · subst hj
          refine Or.inr ⟨h1, hp, _,
            List.get?_set_eq_of_lt _ (by simpa using pendienteAt_lt sheet j hp),
            (setResultCols_gets (sheet.getD j []) _ _ _ _ _).1⟩
        · exact Or.inl (List.get?_set_ne _ _ (Ne.symm hj))
  · unfold markLastRowError
    cases hl : lastPendiente sheet with
    | none => exact Or.inl rfl
    | some i =>
        obtain ⟨h1, hp⟩ := lastPendiente_sound sheet i hl
        by_cases hj : j = i
        · subst hj
          refine Or.inr ⟨h1, hp, _,
            List.get?_set_eq_of_lt _ (by simpa using pendienteAt_lt sheet j hp),
            (setResultCols_gets (sheet.getD j []) _ _ _ _ _).1⟩
        · exact Or.inl (List.get?_set_ne _ _ (Ne.symm hj))

theorem markLastRowError_append_pending (sheet : Sheet) (row : Row)
    (msg : String) (h : sheet ≠ []) :
    (markLastRowError (appendRow sheet row) msg).1 =
      (appendRow sheet row).set sheet.length
        (setResultCols (appendValues row)
          [Cell.str "ERROR", Cell.str "", Cell.str "", Cell.str "",
           Cell.str (sliceJs msg 500)]) := by
  have hget : (sheet ++ [appendValues row]).get? sheet.length = some (appendValues row) :=
    List.get?_concat_length sheet (appendValues row)
  have hp : pendienteAt (sheet ++ [appendValues row]) sheet.length = true := by
    unfold pendienteAt
    rw [hget]
    rfl
  obtain ⟨m, hm⟩ : ∃ m, sheet.length = m + 1 := by
    cases hlen : sheet.length with
    | zero => exact absurd (List.length_eq_zero.mp hlen) h
    | succ m => exact ⟨m, rfl⟩
  have hlast : lastPendiente (sheet ++ [appendValues row]) = some sheet.length := by
    unfold lastPendiente
    have hlen : (sheet ++ [appendValues row]).length = (m + 1) + 1 := by
      simp [hm]
    rw [hlen]
    show scanDown (sheet ++ [appendValues row]) (m + 1) = some sheet.length
    unfold scanDown
    rw [hm] at hp
    rw [if_pos hp, hm]
  unfold markLastRowError appendRow
  unfold appendRow at hlast
  rw [hlast]
  have hgetD : (sheet ++ [appendValues row]).getD sheet.length [] = appendValues row := by
    simp [List.getD, ← List.get?_eq_getElem?, hget]
  dsimp only
  rw [hgetD]

/-- C5: when the authorization call fails, the pipeline marks the row it
just appended (the last `PENDIENTE` row) as `ERROR` with the non-empty
truncated message `AFIP: <cause>`, notifies the user, and stops: the
trace contains no document render, no archive upload and no
`EMITIDO` write-back, and the pre-existing ledger rows are untouched. -/
theorem afip_failure_stops_pipeline (today : String) (pv ct : Int)
    (stringify : JsError → String) (text : String) (o : Outcomes)
    (sheet : Sheet) (p : Row) (e : Option JsError)
    (hparse : parseMessage today pv ct (trimJs text) = some p)
    (happend : o.append = Except.ok ())
    (hafip : o.afip = Except.error e)
    (hsheet : sheet ≠ []) :
    Act.pdfRender ∉ (handleMessage today pv ct stringify text o sheet).2 ∧
    Act.driveUpload ∉ (handleMessage today pv ct stringify text o sheet).2 ∧
    Act.updateRow ∉ (handleMessage today pv ct stringify text o sheet).2 ∧
    Act.tg ("❌ Error en AFIP: " ++ humanError stringify e) ∈
      (handleMessage today pv ct stringify text o sheet).2 ∧
    Act.markErr (sliceJs ("AFIP: " ++ humanError stringify e) 500) ∈
      (handleMessage today pv ct stringify text o sheet).2 ∧
    sliceJs ("AFIP: " ++ humanError stringify e) 500 ≠ "" ∧
    (handleMessage today pv ct stringify text o sheet).1.get? sheet.length =
      some (setResultCols (appendValues p)
        [Cell.str "ERROR", Cell.str "", Cell.str "", Cell.str "",
         Cell.str (sliceJs ("AFIP: " ++ humanError stringify e) 500)]) ∧
    (∀ j, j < sheet.length →
        (handleMessage today pv ct stringify text o sheet).1.get? j = sheet.get? j) := by
  have hstart : ¬(trimJs text = "/start") := by
    intro hs
    rw [hs] at hparse
    have hnone : parseMessage today pv ct "/start" = none := rfl
    rw [hnone] at hparse
    cases hparse
  have hne : sliceJs ("AFIP: " ++ humanError stringify e) 500 ≠ "" := by
    intro hcontra
    have := congrArg String.data hcontra
    simp only [sliceJs, String.data_append] at this
    have h500 : (500 : Nat) = 499 + 1 := rfl
    rw [show ("AFIP: ".data ++ (humanError stringify e).data) =
          'A' :: ("FIP: ".data ++ (humanError stringify e).data) from rfl,
        h500, List.take_succ_cons] at this
    cases this
  have hrun :
      handleMessage today pv ct stringify text o sheet =
        ((markLastRowError (appendRow sheet p)
            ("AFIP: " ++ humanError stringify e)).1,
         [Act.tg "⏳ Recibí los datos. Estoy emitiendo la factura…",
          Act.tg "➡️ Enviando solicitud a AFIP…", Act.afipCall] ++
          [Act.markErr (sliceJs ("AFIP: " ++ humanError stringify e) 500),
           Act.tg ("❌ Error en AFIP: " ++ humanError stringify e)]) := by
    unfold handleMessage
    rw [if_neg hstart, hparse, happend, hafip]
  rw [hrun, markLastRowError_append_pending sheet p _ hsheet]
  have hlt : sheet.length < (appendRow sheet p).length := by
    simp [appendRow]
  refine ⟨by simp, by simp, by simp, by simp, by simp, hne, ?_, ?_⟩
  · exact List.get?_set_eq_of_lt _ (by simpa using hlt)
  · intro j hj
    rw [List.get?_set_ne _ _ (by omega)]
    exact List.get?_append hj

/-- Witness for C5: a run over a header-plus-pending ledger whose AFIP
step times out renders no PDF, uploads nothing, performs no `EMITIDO`
write-back, and records a non-empty truncated error message. -/
theorem afip_failure_stops_pipeline_witness :
    Act.pdfRender ∉
      (handleMessage "2025-10-11" 1 11 (fun _ => "") textSample
        outcomesAfipFail sheetSample).2 ∧
    Act.driveUpload ∉
      (handleMessage "2025-10-11" 1 11 (fun _ => "") textSample
        outcomesAfipFail sheetSample).2 ∧
    sliceJs ("AFIP: " ++ humanError (fun _ => "") eSample) 500 ≠ "" := by
  have h := afip_failure_stops_pipeline "2025-10-11" 1 11 (fun _ => "")
    textSample outcomesAfipFail sheetSample pSample eSample
    rfl rfl rfl (by intro hcontra; cases hcontra)
  exact ⟨h.1, h.2.1, h.2.2.2.2.2.1⟩

theorem sliceJs_length_le (s : String) (n : Nat) : (sliceJs s n).length ≤ n := by
  show (s.data.take n).length ≤ n
  simp [List.length_take]

set_option maxRecDepth 4000 in
/-- C6 counterexample: `humanError` does not truncate the `e.message`
branch — an error whose `message` is 501 characters long is returned
whole, exceeding the claimed 500-character bound. -/
theorem humanError_unbounded_counterexample :
    500 < (humanError (fun _ => "")
      (some { data := none, message := some ⟨List.replicate 501 'a'⟩ })).length := by
  decide

/-- C6 (amended): every error string persisted to the ledger by
`markLastRowError` is the input truncated to at most 500 characters, and
`humanError` truncates its string-payload branch and its
`JSON.stringify` fallback branch to at most 500 characters; the
`faultstring`/`error.message`/`message` branches, however, are returned
untruncated, so a chat notification can exceed the bound. -/
theorem humanError_truncation_amended :
    (∀ (sheet : Sheet) (errMsg : String) (j : Nat),
        (markLastRowError sheet errMsg).1.get? j = sheet.get? j ∨
        ∃ nr, (markLastRowError sheet errMsg).1.get? j = some nr ∧
          nr.get? 13 = some (Cell.str (sliceJs errMsg 500)) ∧
          (sliceJs errMsg 500).length ≤ 500) ∧
    (∀ (stringify : JsError → String) (s : String) (m : Option String),
        (humanError stringify
          (some { data := some (RespData.str s), message := m })).length ≤ 500) ∧
    (∀ stringify : JsError → String,
        (humanError stringify (some { data := none, message := none })).length ≤ 500) ∧
    (humanError (fun _ => "") none).length ≤ 500 := by
  refine ⟨fun sheet errMsg j => ?_, fun stringify s m => ?_, fun stringify => ?_, by decide⟩
  · unfold markLastRowError
    cases hl : lastPendiente sheet with
    | none => exact Or.inl rfl
    | some i =>
        obtain ⟨h1, hp⟩ := lastPendiente_sound sheet i hl
        by_cases hj : j = i
        · subst hj
          exact Or.inr ⟨_,
            List.get?_set_eq_of_lt _ (by simpa using pendienteAt_lt sheet j hp),
            (setResultCols_gets (sheet.getD j []) _ _ _ _ _).2.2.2.2,
            sliceJs_length_le _ _⟩
        · exact Or.inl (List.get?_set_ne _ _ (Ne.symm hj))
  · exact sliceJs_length_le s 500
  · exact sliceJs_length_le _ 500

theorem strData_inj {s t : String} (h : s.data = t.data) : s = t := by
  cases s; cases t; exact congrArg String.mk h

/-- C8: `afipQrUrl` is exactly the fixed verification-portal prefix
followed by the padding-free base64url encoding of the UTF-8 bytes of
the spec's 13-field JSON payload, in the spec's field order; being a
pure function of the CUIT and the `QrArgs`, the payload is deterministic
and carries no generation timestamp. -/
theorem afipQrUrl_payload (cuit : Int) (a : QrArgs) :
    afipQrUrl cuit a =
      "https://www.afip.gob.ar/fe/qr/?p=" ++
        base64UrlNoPad (utf8Bytes (qrPayloadSpecJson cuit a)) := by
  unfold afipQrUrl
  have h1 : jsNumRepr (1 : Rat) = "1" := rfl
  have k1 : jsonStrRepr "ver" = "\"ver\"" := rfl
  have k2 : jsonStrRepr "fecha" = "\"fecha\"" := rfl
  have k3 : jsonStrRepr "cuit" = "\"cuit\"" := rfl
  have k4 : jsonStrRepr "ptoVta" = "\"ptoVta\"" := rfl
  have k5 : jsonStrRepr "tipoCmp" = "\"tipoCmp\"" := rfl
  have k6 : jsonStrRepr "nroCmp" = "\"nroCmp\"" := rfl
  have k7 : jsonStrRepr "importe" = "\"importe\"" := rfl
  have k8 : jsonStrRepr "moneda" = "\"moneda\"" := rfl
  have k9 : jsonStrRepr "PES" = "\"PES\"" := rfl
  have k10 : jsonStrRepr "ctz" = "\"ctz\"" := rfl
  have k11 : jsonStrRepr "tipoDocRec" = "\"tipoDocRec\"" := rfl
  have k12 : jsonStrRepr "nroDocRec" = "\"nroDocRec\"" := rfl
  have k13 : jsonStrRepr "tipoCodAut" = "\"tipoCodAut\"" := rfl
  have k14 : jsonStrRepr "E" = "\"E\"" := rfl
  have k15 : jsonStrRepr "codAut" = "\"codAut\"" := rfl
  have hjson : jsonObjRepr (qrPayloadFields cuit a) = qrPayloadSpecJson cuit a := by
    apply strData_inj
    simp [jsonObjRepr, qrPayloadFields, jsonFieldsRepr, jvalRepr,
      qrPayloadSpecJson, h1, k1, k2, k3, k4, k5, k6, k7, k8, k9, k10, k11,
      k12, k13, k14, k15, String.data_append]
  rw [hjson]

end Facturacion
